import Mathlib

/-! Shallow embedding of the MT5 re-entry bot core (src/mt5.py).

Prices, volumes and percentages are modelled as exact rationals (ℚ).
Direction and mode are kept as strings exactly as in the source
(`'LONG'`/`'SHORT'`, `'AUTOMATIC'`/`'MANUAL'`).  Broker responses are
modelled by an `Env` record: `tick` models `mt5.symbol_info_tick`,
`point` models `mt5.symbol_info(...).point`, and `sendTicket` models the
ticket returned by `mt5.order_send` (`getattr(result, 'order', 0)`; the
value 0 models a submission that returned no ticket).  Each stateful
method is embedded as a pure function returning the updated order record
together with the list of broker requests it emitted, in emission order.
-/

namespace MT5Bot

/-- Trade-action constants of the gateway API (`TRADE_ACTION_PENDING`,
`TRADE_ACTION_REMOVE`, `TRADE_ACTION_DEAL` in src/mt5.py). -/
inductive TradeAction where
  | PENDING
  | REMOVE
  | DEAL
  deriving DecidableEq

/-- Order-type constants of the gateway API (`ORDER_TYPE_BUY`,
`ORDER_TYPE_SELL`, `ORDER_TYPE_BUY_LIMIT`, `ORDER_TYPE_SELL_LIMIT`). -/
inductive OrderKind where
  | BUY
  | SELL
  | BUY_LIMIT
  | SELL_LIMIT
  deriving DecidableEq

/-- The `LimitOrder` dataclass of src/mt5.py (lines 19-33). -/
structure LimitOrder where
  ticket : ℕ
  symbol : String
  entry_price : ℚ
  direction : String
  volume : ℚ
  sl : ℚ
  tp : ℚ
  mode : String
  adjust_wait : ℚ
  adjust_pct : ℚ
  pip_distance : ℚ
  active : Bool
  is_market : Bool
  deriving DecidableEq

/-- The `Settings` dataclass of src/mt5.py (lines 35-41). -/
structure Settings where
  mode : String
  adjust_wait : ℚ
  adjust_pct : ℚ
  pip_distance : ℚ
  enable_market : Bool
  deriving DecidableEq

/-- The request dictionary built by `_send` / `_send_market`
(src/mt5.py lines 255-267 and 276-289). -/
structure SendReq where
  action : TradeAction
  symbol : String
  volume : ℚ
  otype : OrderKind
  price : ℚ
  sl : ℚ
  tp : ℚ
  deviation : ℕ
  magic : ℕ
  comment : String
  deriving DecidableEq

/-- A request passed to `mt5.order_send`: either a full send dictionary or
the removal dictionary built in `_auto` (src/mt5.py lines 210-213). -/
inductive Request where
  | send (r : SendReq)
  | remove (order : ℕ)
  deriving DecidableEq

/-- The record returned by `mt5.symbol_info_tick`. -/
structure Tick where
  last : ℚ
  bid : ℚ
  ask : ℚ
  deriving DecidableEq

/-- The broker environment observed during one closure step: current tick
per symbol, point size per symbol, and the ticket `order_send` returns for
a given request (0 when the result carries no ticket). -/
structure Env where
  tick : String → Tick
  point : String → ℚ
  sendTicket : Request → ℕ

/-- The pending-limit request dictionary of `_send` (src/mt5.py lines 255-267). -/
def sendReq (price : ℚ) (lo : LimitOrder) : SendReq :=
  { action := TradeAction.PENDING
    symbol := lo.symbol
    volume := lo.volume
    otype := if lo.direction = "LONG" then OrderKind.BUY_LIMIT else OrderKind.SELL_LIMIT
    price := price
    sl := lo.sl
    tp := lo.tp
    deviation := 10
    magic := 123456
    comment := "AutoReEntryBot" }

/-- Method `_send` of `MT5TradingBot` (src/mt5.py lines 251-270): emit the pending
request and return the broker-assigned ticket. -/
def _send (env : Env) (price : ℚ) (lo : LimitOrder) : ℕ × Request :=
  let req := Request.send (sendReq price lo)
  (env.sendTicket req, req)

/-- The market request dictionary of `_send_market` (src/mt5.py lines
276-289): note the price field is taken from the current tick (ask for
LONG, bid otherwise), never from the supplied price argument. -/
def marketReq (env : Env) (lo : LimitOrder) : SendReq :=
  { action := TradeAction.DEAL
    symbol := lo.symbol
    volume := lo.volume
    otype := if lo.direction = "LONG" then OrderKind.BUY else OrderKind.SELL
    price := if lo.direction = "LONG" then (env.tick lo.symbol).ask else (env.tick lo.symbol).bid
    sl := lo.sl
    tp := lo.tp
    deviation := 10
    magic := 123456
    comment := "AutoReEntryBot" }

/-- Method `_send_market` of `MT5TradingBot` (src/mt5.py lines 272-292).  The `price`
parameter is accepted but never read, exactly as in the source. -/
def _send_market (env : Env) (price : ℚ) (lo : LimitOrder) : ℕ × Request :=
  let req := Request.send (marketReq env lo)
  (env.sendTicket req, req)

/-- Method `_auto` of `MT5TradingBot` (src/mt5.py lines 180-226): duplicate the order,
then (for limit-origin orders only) compute the movement past the original
stop, and iff the candidate entry is strictly worse, remove the duplicate
and re-send all levels shifted by the same delta. -/
def _auto (env : Env) (lo : LimitOrder) : LimitOrder × List Request :=
  let first := if lo.is_market then _send_market env lo.entry_price lo
               else _send env lo.entry_price lo
  let lo1 : LimitOrder := { lo with ticket := first.1 }
  if lo.is_market then
    (lo1, [first.2])
  else
    let tick := env.tick lo.symbol
    let movement := tick.last - lo1.sl
    let adj := movement * lo1.adjust_pct / 100
    let new_entry := if lo1.direction = "LONG" then lo1.entry_price - adj
                     else lo1.entry_price + adj
    if (lo1.direction = "LONG" ∧ new_entry < lo1.entry_price) ∨
       (lo1.direction = "SHORT" ∧ new_entry > lo1.entry_price) then
      let removeReq := Request.remove lo1.ticket
      let delta := new_entry - lo1.entry_price
      let lo2 : LimitOrder := { lo1 with
        entry_price := lo1.entry_price + delta
        sl := lo1.sl + delta
        tp := lo1.tp + delta }
      let second := _send env lo2.entry_price lo2
      ({ lo2 with ticket := second.1 }, [first.2, removeReq, second.2])
    else
      (lo1, [first.2])

/-- Method `_manual` of `MT5TradingBot` (src/mt5.py lines 228-249): shift entry,
stop-loss and take-profit by `pip_distance * point * (-1 for LONG, +1
otherwise)`, the new entry anchored at the old stop-loss, and submit one
order (pending for limit-origin, market for market-origin). -/
def _manual (env : Env) (lo : LimitOrder) : LimitOrder × List Request :=
  let point := env.point lo.symbol
  let mult : ℚ := if lo.direction = "LONG" then -1 else 1
  let delta := lo.pip_distance * point * mult
  let lo1 : LimitOrder := { lo with
    entry_price := lo.sl + delta
    sl := lo.sl + delta
    tp := lo.tp + delta }
  let snd := if lo1.is_market then _send_market env lo1.entry_price lo1
             else _send env lo1.entry_price lo1
  ({ lo1 with ticket := snd.1 }, [snd.2])

/-- The order registry `self.tracked`: a map from broker ticket to tracked
order, modelled as an association list with unique keys. -/
abbrev Registry := List (ℕ × LimitOrder)

/-- Model of `dict.pop(t, None)`: remove the entry keyed `t` if present. -/
def popTicket (r : Registry) (t : ℕ) : Registry :=
  r.eraseP (fun p => p.1 == t)

/-- Model of the membership test `t in self.tracked`. -/
def containsTicket (r : Registry) (t : ℕ) : Bool :=
  r.any (fun p => p.1 == t)

/-- Lookup `self.tracked[t]` (first entry keyed `t`). -/
def lookupTicket (r : Registry) (t : ℕ) : Option LimitOrder :=
  (r.find? (fun p => p.1 == t)).map (fun p => p.2)

/-- The closure branch of `MT5TradingBot._watch_common` (src/mt5.py lines
171-178): once the position record disappears, run `_auto` or `_manual`
according to the captured mode, set `active = False`, and pop
`self.tracked` keyed by `lo.ticket` — whose value at that point is the
ticket assigned to the re-entry order, the algorithms having overwritten
it. -/
def _watch_close (env : Env) (tracked : Registry) (lo : LimitOrder) :
    Registry × LimitOrder × List Request :=
  let step := if lo.mode = "AUTOMATIC" then _auto env lo else _manual env lo
  let lo1 : LimitOrder := { step.1 with active := false }
  (popTicket tracked lo1.ticket, lo1, step.2)

/-- A broker pending-order record as consumed by `_add` (the fields of the
record that `_add` reads; `price_open` stands for
`getattr(o, 'price_open', o.price)`). -/
structure OrderRec where
  ticket : ℕ
  symbol : String
  otype : OrderKind
  price_open : ℚ
  volume_initial : ℚ
  sl : ℚ
  tp : ℚ
  deriving DecidableEq

/-- The `LimitOrder` built by `MT5TradingBot._add` (src/mt5.py lines
85-104): the current settings' mode and parameters are copied by value
into the new record. -/
def mkLimit (s : Settings) (o : OrderRec) : LimitOrder :=
  { ticket := o.ticket
    symbol := o.symbol
    entry_price := o.price_open
    direction := if o.otype = OrderKind.BUY_LIMIT then "LONG" else "SHORT"
    volume := o.volume_initial
    sl := o.sl
    tp := o.tp
    mode := s.mode
    adjust_wait := s.adjust_wait
    adjust_pct := s.adjust_pct
    pip_distance := s.pip_distance
    active := true
    is_market := false }

/-- Method `_add` of `MT5TradingBot`: `self.tracked[lo.ticket] = lo` for a newly
discovered order (the discovery loop only calls it when the ticket is
absent, so the insert is a cons). -/
def _add (s : Settings) (tracked : Registry) (o : OrderRec) : Registry :=
  (o.ticket, mkLimit s o) :: tracked

/-- The bot object created by `MT5TradingBot.__init__` (src/mt5.py lines
54-60).  `self.settings = global_settings` aliases the module-level
settings object, so the bot has no settings copy of its own: registration
always reads the process-wide settings cell, which is modelled in
`SysState`. -/
structure BotState where
  tracked : Registry
  running : Bool
  deriving DecidableEq

/-- The fields of the `/start` form (src/mt5.py lines 336-340). -/
structure StartForm where
  mode : String
  wait : ℚ
  pct : ℚ
  pip : ℚ
  enable_market : Bool
  deriving DecidableEq

/-- The module-level state: the process-wide `global_settings` object and
the optional `bot` singleton (src/mt5.py lines 46-48). -/
structure SysState where
  global_settings : Settings
  bot : Option BotState
  deriving DecidableEq

/-- The settings produced by the `/start` form assignments (src/mt5.py
lines 336-340): every field of `global_settings` is overwritten from the
form. -/
def formSettings (f : StartForm) : Settings :=
  { mode := f.mode
    adjust_wait := f.wait
    adjust_pct := f.pct
    pip_distance := f.pip
    enable_market := f.enable_market }

/-- The `/start` route (src/mt5.py lines 333-350).  `initOk` models the
result of `mt5.initialize()` inside `MT5TradingBot.__init__`; when it is
false the constructor raises and `bot` is left unassigned.  The returned
boolean records whether a monitor (discovery-loop) thread was spawned;
the string is the flashed message. -/
def start (st : SysState) (f : StartForm) (initOk : Bool) :
    SysState × Bool × String :=
  let st1 : SysState := { st with global_settings := formSettings f }
  match st1.bot with
  | some b => ({ st1 with bot := some b }, false, "Bot already running")
  | none =>
    if initOk then
      ({ st1 with bot := some { tracked := [], running := true } }, true, "Bot started")
    else
      ({ st1 with bot := none }, false, "Error: MT5 init failed")

/-- Registration of a newly discovered pending order by the monitor loop
(src/mt5.py lines 69-74): reads the process-wide settings at registration
time and inserts the captured record. -/
def registerOrder (st : SysState) (o : OrderRec) : SysState :=
  match st.bot with
  | none => st
  | some b => { st with bot := some { b with tracked := _add st.global_settings b.tracked o } }

/-- Operation `configure_policy` of the control surface: the settings assignments of
the `/start` route (src/mt5.py lines 336-340), which replace every field
of the process-wide settings in place. -/
def configure_policy (st : SysState) (f : StartForm) : SysState :=
  { st with global_settings := formSettings f }

/-- Whether a request is a pending-order submission. -/
def isPendingSend : Request → Bool
  | Request.send r => r.action == TradeAction.PENDING
  | Request.remove _ => false

/-- Interpretation of an emitted request trace by an ideal broker: a
pending send adds its assigned ticket to the live pending orders, a
removal deletes that ticket.  Used to state that a re-entry leaves exactly
one live pending order. -/
def liveAfter (env : Env) : List Request → List ℕ → List ℕ
  | [], acc => acc
  | Request.send r :: rest, acc =>
      if r.action = TradeAction.PENDING then
        liveAfter env rest (acc ++ [env.sendTicket (Request.send r)])
      else
        liveAfter env rest acc
  | Request.remove t :: rest, acc =>
      liveAfter env rest (acc.eraseP (fun x => x == t))

/-! Concrete fixtures.

`env0` is the broker environment of the stub (src/mt5_stub.py): last price
1.0970, point 0.0001; `order_send` hands out ticket 777.  `envZ` is the
same environment except every submission returns no ticket
(`getattr(result, 'order', 0) = 0`).  `lo0` is the tracked order built
from the stub's fake EURUSD buy-limit #12345. -/

def env0 : Env :=
  { tick := fun _ => { last := 1.0970, bid := 1.0969, ask := 1.0971 }
    point := fun _ => 0.0001
    sendTicket := fun _ => 777 }

def envZ : Env :=
  { tick := fun _ => { last := 1.0970, bid := 1.0969, ask := 1.0971 }
    point := fun _ => 0.0001
    sendTicket := fun _ => 0 }

def lo0 : LimitOrder :=
  { ticket := 12345
    symbol := "EURUSD"
    entry_price := 1.1000
    direction := "LONG"
    volume := 0.1
    sl := 1.0980
    tp := 1.1020
    mode := "AUTOMATIC"
    adjust_wait := 5
    adjust_pct := 50
    pip_distance := 20
    active := true
    is_market := false }

/-- Fixture `lo0` as a MANUAL-mode tracked order of market origin. -/
def loM : LimitOrder :=
  { lo0 with ticket := 555, mode := "MANUAL", is_market := true }

/-- The registry right after `lo0` was registered. -/
def tracked0 : Registry := [(12345, lo0)]

/-- Fixture `lo0` with SHORT direction. -/
def loS : LimitOrder := { lo0 with direction := "SHORT" }

/-- Fixture `lo0` as a MANUAL-mode limit-origin tracked order. -/
def loML : LimitOrder := { lo0 with mode := "MANUAL" }

/-- Fixture `lo0` as an AUTOMATIC-mode tracked order of market origin. -/
def loAM : LimitOrder := { lo0 with is_market := true }

/-- Like `env0` but with the last price above the original stop, so the
automatic adjustment qualifies for a LONG order. -/
def envA : Env :=
  { env0 with tick := fun _ => { last := 1.1010, bid := 1.1009, ask := 1.1011 } }

/-- The candidate entry computed by `_auto` after the wait (src/mt5.py
lines 196-202): `entry − movement·pct/100` for LONG, `entry +
movement·pct/100` otherwise, with `movement = tick.last − sl`. -/
def autoCandidate (env : Env) (lo : LimitOrder) : ℚ :=
  if lo.direction = "LONG" then
    lo.entry_price - ((env.tick lo.symbol).last - lo.sl) * lo.adjust_pct / 100
  else
    lo.entry_price + ((env.tick lo.symbol).last - lo.sl) * lo.adjust_pct / 100

/-- The qualification test of `_auto` (src/mt5.py lines 205-206): adjust
only if the candidate entry is strictly lower than the original entry for
LONG, strictly higher for SHORT. -/
def autoQualifies (env : Env) (lo : LimitOrder) : Prop :=
  (lo.direction = "LONG" ∧ autoCandidate env lo < lo.entry_price) ∨
  (lo.direction = "SHORT" ∧ autoCandidate env lo > lo.entry_price)

/-- The shift applied by `_manual` (src/mt5.py lines 235-237):
`pip_distance · point · (−1 for LONG, +1 otherwise)`. -/
def manualDelta (env : Env) (lo : LimitOrder) : ℚ :=
  lo.pip_distance * env.point lo.symbol * (if lo.direction = "LONG" then -1 else 1)

/-- The order levels after the `_manual` shift (src/mt5.py lines 239-241):
entry anchored at the old stop plus delta, stop and take-profit shifted by
the same delta. -/
def manualShifted (env : Env) (lo : LimitOrder) : LimitOrder :=
  { lo with
    entry_price := lo.sl + manualDelta env lo
    sl := lo.sl + manualDelta env lo
    tp := lo.tp + manualDelta env lo }

/-- The settings the process starts with (the defaults of the `Settings`
dataclass). -/
def settings0 : Settings :=
  { mode := "AUTOMATIC", adjust_wait := 5, adjust_pct := 50, pip_distance := 20,
    enable_market := false }

/-- A freshly constructed bot with nothing tracked. -/
def bot0 : BotState := { tracked := [], running := true }

/-- A system state in which the bot is already running. -/
def sys0 : SysState := { global_settings := settings0, bot := some bot0 }

/-- A start form carrying settings that differ from `settings0` in every
field. -/
def form0 : StartForm :=
  { mode := "MANUAL", wait := 2, pct := 25, pip := 10, enable_market := true }

/-- The broker record of the stub's fake EURUSD buy-limit order. -/
def ord0 : OrderRec :=
  { ticket := 12345, symbol := "EURUSD", otype := OrderKind.BUY_LIMIT,
    price_open := 1.1000, volume_initial := 0.1, sl := 1.0980, tp := 1.1020 }

/-- The registry of the running bot, empty when no bot exists. -/
def trackedOf (st : SysState) : Registry :=
  match st.bot with
  | none => []
  | some b => b.tracked

/-! Unfolding lemmas for the re-entry algorithms. -/

/-- Evaluation of `_auto` on a limit-origin order when the adjustment qualifies:
duplicate, remove the duplicate, re-send all three levels shifted by the
identical delta `autoCandidate − entry`. -/
lemma auto_limit_pos (env : Env) (lo : LimitOrder) (hm : lo.is_market = false)
    (hq : autoQualifies env lo) :
    _auto env lo =
      ({ lo with
          ticket := env.sendTicket (Request.send (sendReq
            (lo.entry_price + (autoCandidate env lo - lo.entry_price))
            { lo with
                ticket := env.sendTicket (Request.send (sendReq lo.entry_price lo))
                entry_price := lo.entry_price + (autoCandidate env lo - lo.entry_price)
                sl := lo.sl + (autoCandidate env lo - lo.entry_price)
                tp := lo.tp + (autoCandidate env lo - lo.entry_price) }))
          entry_price := lo.entry_price + (autoCandidate env lo - lo.entry_price)
          sl := lo.sl + (autoCandidate env lo - lo.entry_price)
          tp := lo.tp + (autoCandidate env lo - lo.entry_price) },
       [Request.send (sendReq lo.entry_price lo),
        Request.remove (env.sendTicket (Request.send (sendReq lo.entry_price lo))),
        Request.send (sendReq
          (lo.entry_price + (autoCandidate env lo - lo.entry_price))
          { lo with
              ticket := env.sendTicket (Request.send (sendReq lo.entry_price lo))
              entry_price := lo.entry_price + (autoCandidate env lo - lo.entry_price)
              sl := lo.sl + (autoCandidate env lo - lo.entry_price)
              tp := lo.tp + (autoCandidate env lo - lo.entry_price) })]) := by
  unfold _auto _send
  simp only [hm, Bool.false_eq_true, if_false]
  rw [if_pos]
  · rfl
  · unfold autoQualifies autoCandidate at hq
    simpa using hq

/-- Evaluation of `_auto` on a limit-origin order when the adjustment does not qualify:
only the duplicate is sent, and only the ticket of the tracked order
changes. -/
lemma auto_limit_neg (env : Env) (lo : LimitOrder) (hm : lo.is_market = false)
    (hq : ¬ autoQualifies env lo) :
    _auto env lo =
      ({ lo with ticket := env.sendTicket (Request.send (sendReq lo.entry_price lo)) },
       [Request.send (sendReq lo.entry_price lo)]) := by
  unfold _auto _send
  simp only [hm, Bool.false_eq_true, if_false]
  rw [if_neg]
  unfold autoQualifies autoCandidate at hq
  simpa using hq

/-- Evaluation of `_auto` on a market-origin order: one market submission and nothing
else; the adjustment phase is skipped entirely. -/
lemma auto_market (env : Env) (lo : LimitOrder) (hm : lo.is_market = true) :
    _auto env lo =
      ({ lo with ticket := env.sendTicket (Request.send (marketReq env lo)) },
       [Request.send (marketReq env lo)]) := by
  unfold _auto _send_market
  simp [hm]

/-- Evaluation of `_manual`: shift the levels by `manualDelta`, then send one
order — pending at the new entry for limit origin, market for market
origin. -/
lemma manual_eq (env : Env) (lo : LimitOrder) :
    _manual env lo =
      ({ manualShifted env lo with
          ticket := env.sendTicket (if lo.is_market then
            Request.send (marketReq env (manualShifted env lo))
          else
            Request.send (sendReq (lo.sl + manualDelta env lo) (manualShifted env lo))) },
       [if lo.is_market then
          Request.send (marketReq env (manualShifted env lo))
        else
          Request.send (sendReq (lo.sl + manualDelta env lo) (manualShifted env lo))]) := by
  unfold _manual _send _send_market manualShifted manualDelta
  cases hmk : lo.is_market <;> simp [hmk]

/-- The qualification test only depends on the environment through the
tick feed. -/
lemma autoQualifies_congr (env env' : Env) (lo : LimitOrder)
    (ht : env.tick = env'.tick) :
    autoQualifies env lo ↔ autoQualifies env' lo := by
  unfold autoQualifies autoCandidate
  rw [ht]

/-! Claim theorems. -/

/-- Claim C1 (refuted; evaluation of the code at the failing input): after
the watcher of the stub's order #12345 completes its AUTOMATIC re-entry
(broker assigning ticket 777 to the re-entry order), the registry still
contains the original ticket 12345 — the pop is keyed by the overwritten
`lo.ticket` (777) and removes nothing, contradicting the claim that the
entry is removed keyed by the original broker ticket. -/
theorem watch_close_leaves_original_ticket_tracked :
    containsTicket (_watch_close env0 tracked0 lo0).1 12345 = true ∧
    (_watch_close env0 tracked0 lo0).1 = tracked0 ∧
    (_watch_close env0 tracked0 lo0).2.1.active = false ∧
    (_watch_close env0 tracked0 lo0).2.1.ticket = 777 := by
  norm_num +decide [_watch_close, _auto, _send, _send_market, sendReq, marketReq,
    env0, lo0, tracked0, popTicket, containsTicket]

/-- Claim C2: in the Automatic re-entry for a pending-limit-origin order,
the adjustment (remove duplicate + re-send, a three-request trace) happens
if and only if the candidate entry `entry − movement·pct/100` (LONG) resp.
`entry + movement·pct/100` (SHORT), with `movement = last − sl`, is
strictly lower (LONG) resp. strictly higher (SHORT) than the original
entry; otherwise the initially placed duplicate is left unmodified — the
trace is exactly the duplicate submission and entry, stop and take-profit
are unchanged. -/
theorem auto_adjust_iff_strictly_worse (env : Env) (lo : LimitOrder)
    (hm : lo.is_market = false)
    (hd : lo.direction = "LONG" ∨ lo.direction = "SHORT") :
    ((_auto env lo).2.length = 3 ↔ autoQualifies env lo) ∧
    (¬ autoQualifies env lo →
      (_auto env lo).2 = [Request.send (sendReq lo.entry_price lo)] ∧
      (_auto env lo).1.entry_price = lo.entry_price ∧
      (_auto env lo).1.sl = lo.sl ∧
      (_auto env lo).1.tp = lo.tp) := by
  by_cases hq : autoQualifies env lo
  · rw [auto_limit_pos env lo hm hq]
    simp [hq]
  · rw [auto_limit_neg env lo hm hq]
    simp [hq]

/-- Witness for C2 at the stub's fixture: the adjustment does not qualify
there (last price 1.0970 gives candidate 1.1005 > 1.1000 for LONG). -/
theorem auto_adjust_iff_strictly_worse_witness :
    ((_auto env0 lo0).2.length = 3 ↔ autoQualifies env0 lo0) ∧
    (¬ autoQualifies env0 lo0 →
      (_auto env0 lo0).2 = [Request.send (sendReq lo0.entry_price lo0)] ∧
      (_auto env0 lo0).1.entry_price = lo0.entry_price ∧
      (_auto env0 lo0).1.sl = lo0.sl ∧
      (_auto env0 lo0).1.tp = lo0.tp) :=
  auto_adjust_iff_strictly_worse env0 lo0 rfl (Or.inl rfl)

/-- Claim C3: when the Automatic algorithm applies an adjustment, entry,
stop-loss and take-profit all shift by the identical delta
`autoCandidate − entry` (so both distances entry−sl and tp−entry are
preserved); the trace is duplicate, removal of the duplicate's ticket,
adjusted re-send — removal strictly before the re-send — and interpreting
the trace leaves exactly one live pending order, the final one. -/
theorem auto_adjustment_uniform_shift (env : Env) (lo : LimitOrder)
    (hm : lo.is_market = false) (hq : autoQualifies env lo) :
    (_auto env lo).1.entry_price - lo.entry_price = autoCandidate env lo - lo.entry_price ∧
    (_auto env lo).1.sl - lo.sl = autoCandidate env lo - lo.entry_price ∧
    (_auto env lo).1.tp - lo.tp = autoCandidate env lo - lo.entry_price ∧
    (_auto env lo).1.entry_price - (_auto env lo).1.sl = lo.entry_price - lo.sl ∧
    (_auto env lo).1.tp - (_auto env lo).1.entry_price = lo.tp - lo.entry_price ∧
    (_auto env lo).2 =
      [Request.send (sendReq lo.entry_price lo),
       Request.remove (env.sendTicket (Request.send (sendReq lo.entry_price lo))),
       Request.send (sendReq
         (lo.entry_price + (autoCandidate env lo - lo.entry_price))
         { lo with
             ticket := env.sendTicket (Request.send (sendReq lo.entry_price lo))
             entry_price := lo.entry_price + (autoCandidate env lo - lo.entry_price)
             sl := lo.sl + (autoCandidate env lo - lo.entry_price)
             tp := lo.tp + (autoCandidate env lo - lo.entry_price) })] ∧
    liveAfter env (_auto env lo).2 [] = [(_auto env lo).1.ticket] := by
  rw [auto_limit_pos env lo hm hq]
  refine ⟨by dsimp; ring, by dsimp; ring, by dsimp; ring, by dsimp; ring,
    by dsimp; ring, rfl, ?_⟩
  simp [liveAfter, sendReq]

/-- Witness for C3 under `envA`, whose last price 1.1010 lies above the
stop 1.0980, so the candidate 1.0985 is strictly below the entry 1.1000
and the adjustment qualifies for the LONG fixture. -/
theorem auto_adjustment_uniform_shift_witness :
    (_auto envA lo0).1.entry_price - lo0.entry_price = autoCandidate envA lo0 - lo0.entry_price ∧
    (_auto envA lo0).1.sl - lo0.sl = autoCandidate envA lo0 - lo0.entry_price ∧
    (_auto envA lo0).1.tp - lo0.tp = autoCandidate envA lo0 - lo0.entry_price ∧
    (_auto envA lo0).1.entry_price - (_auto envA lo0).1.sl = lo0.entry_price - lo0.sl ∧
    (_auto envA lo0).1.tp - (_auto envA lo0).1.entry_price = lo0.tp - lo0.entry_price ∧
    (_auto envA lo0).2 =
      [Request.send (sendReq lo0.entry_price lo0),
       Request.remove (envA.sendTicket (Request.send (sendReq lo0.entry_price lo0))),
       Request.send (sendReq
         (lo0.entry_price + (autoCandidate envA lo0 - lo0.entry_price))
         { lo0 with
             ticket := envA.sendTicket (Request.send (sendReq lo0.entry_price lo0))
             entry_price := lo0.entry_price + (autoCandidate envA lo0 - lo0.entry_price)
             sl := lo0.sl + (autoCandidate envA lo0 - lo0.entry_price)
             tp := lo0.tp + (autoCandidate envA lo0 - lo0.entry_price) })] ∧
    liveAfter envA (_auto envA lo0).2 [] = [(_auto envA lo0).1.ticket] :=
  auto_adjustment_uniform_shift envA lo0 rfl
    (Or.inl ⟨rfl, by norm_num [autoCandidate, envA, env0, lo0]⟩)

/-- Claim C4 counterexample: for a tracked order in MANUAL mode of market
origin, the single submitted order is not a pending order (it is a market
order), even though the level arithmetic of the claim holds (entry = stop
= 1.0960, take-profit 1.1000) — so the claim's "one new pending order is
submitted" is false at this input. -/
theorem manual_market_origin_not_pending :
    (_manual env0 loM).2.any isPendingSend = false ∧
    (_manual env0 loM).2.length = 1 ∧
    (_manual env0 loM).1.entry_price = 1.0960 ∧
    (_manual env0 loM).1.sl = 1.0960 ∧
    (_manual env0 loM).1.tp = 1.1000 := by
  norm_num +decide [_manual, _send, _send_market, sendReq, marketReq, env0, loM, lo0,
    isPendingSend]

/-- Claim C4 (amended): for every tracked order in MANUAL mode at closure,
with `delta = pip_distance · point · (−1 for LONG, +1 for SHORT)`, the new
entry equals the original stop-loss + delta, the stop-loss and take-profit
shift by the same delta (hence new entry = new stop-loss, the collision
case), and exactly one order is submitted immediately with no wait and no
conditional check — a pending limit order at the new levels for
limit-origin orders, a market order for market-origin orders. -/
theorem manual_reentry_shift (env : Env) (tr : Registry) (lo : LimitOrder)
    (hmode : lo.mode = "MANUAL") :
    (_watch_close env tr lo).2.1.entry_price = lo.sl + manualDelta env lo ∧
    (_watch_close env tr lo).2.1.sl = lo.sl + manualDelta env lo ∧
    (_watch_close env tr lo).2.1.tp = lo.tp + manualDelta env lo ∧
    (_watch_close env tr lo).2.1.entry_price = (_watch_close env tr lo).2.1.sl ∧
    (_watch_close env tr lo).2.2 =
      [if lo.is_market then Request.send (marketReq env (manualShifted env lo))
       else Request.send (sendReq (lo.sl + manualDelta env lo) (manualShifted env lo))] := by
  have hmode' : ¬ (lo.mode = "AUTOMATIC") := by simp [hmode]
  unfold _watch_close
  rw [if_neg hmode', manual_eq env lo]
  exact ⟨rfl, rfl, rfl, rfl, rfl⟩

/-- Witness for amended C4 at the MANUAL limit-origin fixture. -/
theorem manual_reentry_shift_witness :
    (_watch_close env0 tracked0 loML).2.1.entry_price = loML.sl + manualDelta env0 loML ∧
    (_watch_close env0 tracked0 loML).2.1.sl = loML.sl + manualDelta env0 loML ∧
    (_watch_close env0 tracked0 loML).2.1.tp = loML.tp + manualDelta env0 loML ∧
    (_watch_close env0 tracked0 loML).2.1.entry_price = (_watch_close env0 tracked0 loML).2.1.sl ∧
    (_watch_close env0 tracked0 loML).2.2 =
      [if loML.is_market then Request.send (marketReq env0 (manualShifted env0 loML))
       else Request.send (sendReq (loML.sl + manualDelta env0 loML) (manualShifted env0 loML))] :=
  manual_reentry_shift env0 tracked0 loML rfl

/-- Claim C5: once an order is registered, replacing every field of the
process-wide policy configuration leaves the registered entry — and in
particular its captured mode, adjust_wait, adjust_pct and pip_distance,
which equal the settings in force at registration time — unchanged, while
the configuration itself now carries the new values. -/
theorem policy_capture_frozen (st : SysState) (b : BotState) (o : OrderRec) (f : StartForm)
    (hb : st.bot = some b) :
    (configure_policy (registerOrder st o) f).global_settings = formSettings f ∧
    ((configure_policy (registerOrder st o) f).bot.map
        (fun bb => lookupTicket bb.tracked o.ticket))
      = some (some (mkLimit st.global_settings o)) ∧
    (mkLimit st.global_settings o).mode = st.global_settings.mode ∧
    (mkLimit st.global_settings o).adjust_wait = st.global_settings.adjust_wait ∧
    (mkLimit st.global_settings o).adjust_pct = st.global_settings.adjust_pct ∧
    (mkLimit st.global_settings o).pip_distance = st.global_settings.pip_distance := by
  simp [configure_policy, registerOrder, hb, _add, lookupTicket, mkLimit, formSettings]

/-- Witness for C5: register the stub's order while `settings0` is in
force, then reconfigure with `form0`, which differs in every field. -/
theorem policy_capture_frozen_witness :
    (configure_policy (registerOrder sys0 ord0) form0).global_settings = formSettings form0 ∧
    ((configure_policy (registerOrder sys0 ord0) form0).bot.map
        (fun bb => lookupTicket bb.tracked ord0.ticket))
      = some (some (mkLimit sys0.global_settings ord0)) ∧
    (mkLimit sys0.global_settings ord0).mode = sys0.global_settings.mode ∧
    (mkLimit sys0.global_settings ord0).adjust_wait = sys0.global_settings.adjust_wait ∧
    (mkLimit sys0.global_settings ord0).adjust_pct = sys0.global_settings.adjust_pct ∧
    (mkLimit sys0.global_settings ord0).pip_distance = sys0.global_settings.pip_distance :=
  policy_capture_frozen sys0 bot0 ord0 form0 rfl

/-- Claim C6 counterexample: when every submission returns no ticket (0),
the watcher still runs the algorithm once (one emitted request), marks the
order inactive — but the original ticket 12345 is NOT removed from
tracking, refuting the claim's "removes it from tracking regardless of the
submission result". -/
theorem submission_failure_original_still_tracked :
    (_watch_close envZ tracked0 lo0).2.1.ticket = 0 ∧
    (_watch_close envZ tracked0 lo0).2.1.active = false ∧
    (_watch_close envZ tracked0 lo0).2.2.length = 1 ∧
    containsTicket (_watch_close envZ tracked0 lo0).1 12345 = true := by
  norm_num +decide [_watch_close, _auto, _send, _send_market, sendReq, marketReq,
    envZ, lo0, tracked0, popTicket, containsTicket]

/-- Claim C6 (amended): a failed or ticketless submission is not retried
and the watcher transitions onward as if it had succeeded — the closure
step emits exactly the selected algorithm's trace, whose length is
independent of what `order_send` returns (same tick and point feeds give
the same number of requests for any ticket assignment), the order is
marked inactive, and a single registry removal keyed by the final
(re-entry) ticket is performed regardless of the submission result. -/
theorem watch_close_no_retry (env env' : Env) (tr : Registry) (lo : LimitOrder)
    (ht : env.tick = env'.tick) (hp : env.point = env'.point) :
    (_watch_close env tr lo).2.2 =
      (if lo.mode = "AUTOMATIC" then _auto env lo else _manual env lo).2 ∧
    (_watch_close env tr lo).2.2.length = (_watch_close env' tr lo).2.2.length ∧
    (_watch_close env tr lo).2.1.active = false ∧
    (_watch_close env tr lo).1 = popTicket tr (_watch_close env tr lo).2.1.ticket := by
  refine ⟨rfl, ?_, rfl, rfl⟩
  unfold _watch_close
  by_cases hmode : lo.mode = "AUTOMATIC"
  · rw [if_pos hmode, if_pos hmode]
    cases hmk : lo.is_market
    · by_cases hq : autoQualifies env lo
      · have hq' : autoQualifies env' lo := (autoQualifies_congr env env' lo ht).mp hq
        rw [auto_limit_pos env lo hmk hq, auto_limit_pos env' lo hmk hq']
        rfl
      · have hq' : ¬ autoQualifies env' lo :=
          fun h => hq ((autoQualifies_congr env env' lo ht).mpr h)
        rw [auto_limit_neg env lo hmk hq, auto_limit_neg env' lo hmk hq']
    · rw [auto_market env lo hmk, auto_market env' lo hmk]
      rfl
  · rw [if_neg hmode, if_neg hmode, manual_eq env lo, manual_eq env' lo]
    rfl

/-- Witness for amended C6, comparing the broker that assigns ticket 777
with the broker whose submissions all return no ticket. -/
theorem watch_close_no_retry_witness :
    (_watch_close env0 tracked0 lo0).2.2 =
      (if lo0.mode = "AUTOMATIC" then _auto env0 lo0 else _manual env0 lo0).2 ∧
    (_watch_close env0 tracked0 lo0).2.2.length = (_watch_close envZ tracked0 lo0).2.2.length ∧
    (_watch_close env0 tracked0 lo0).2.1.active = false ∧
    (_watch_close env0 tracked0 lo0).1 =
      popTicket tracked0 (_watch_close env0 tracked0 lo0).2.1.ticket :=
  watch_close_no_retry env0 envZ tracked0 lo0 rfl rfl

/-- Claim C7: `start` with a bot already present keeps that very bot and
spawns no discovery loop; with no bot and successful gateway
initialization it installs a fresh bot and spawns the discovery loop; and
when initialization fails the error is reported and no bot instance is
retained. -/
theorem start_semantics (st : SysState) (f : StartForm) (b : BotState) (initOk : Bool) :
    (st.bot = some b →
      (start st f initOk).1.bot = some b ∧ (start st f initOk).2.1 = false) ∧
    (st.bot = none → initOk = true →
      (start st f initOk).1.bot = some { tracked := [], running := true } ∧
      (start st f initOk).2.1 = true) ∧
    (st.bot = none → initOk = false →
      (start st f initOk).1.bot = none ∧
      (start st f initOk).2.1 = false ∧
      (start st f initOk).2.2 = "Error: MT5 init failed") := by
  unfold start
  refine ⟨fun h => ?_, fun h hi => ?_, fun h hi => ?_⟩ <;> simp [h] <;> simp [hi]

/-- Witness for C7: a running system keeps its bot, and a stopped system
whose gateway initialization fails stays without a bot. -/
theorem start_semantics_witness :
    ((start sys0 form0 true).1.bot = some bot0 ∧ (start sys0 form0 true).2.1 = false) ∧
    ((start { global_settings := settings0, bot := none } form0 false).1.bot = none ∧
     (start { global_settings := settings0, bot := none } form0 false).2.1 = false ∧
     (start { global_settings := settings0, bot := none } form0 false).2.2 =
       "Error: MT5 init failed") :=
  ⟨(start_semantics sys0 form0 bot0 true).1 rfl,
   (start_semantics { global_settings := settings0, bot := none } form0 bot0 false).2.2 rfl rfl⟩

/-- Claim C8: a pending-limit submission carries the supplied price
verbatim, while a market submission ignores the supplied price entirely
(`_send_market` is constant in it) and carries the current ask for LONG
and the current bid for SHORT. -/
theorem send_price_semantics (env : Env) (p q : ℚ) (lo : LimitOrder) :
    (_send env p lo).2 = Request.send (sendReq p lo) ∧
    (sendReq p lo).price = p ∧
    (sendReq p lo).action = TradeAction.PENDING ∧
    _send_market env p lo = _send_market env q lo ∧
    (_send_market env p lo).2 = Request.send (marketReq env lo) ∧
    (marketReq env lo).action = TradeAction.DEAL ∧
    (lo.direction = "LONG" → (marketReq env lo).price = (env.tick lo.symbol).ask) ∧
    (lo.direction = "SHORT" → (marketReq env lo).price = (env.tick lo.symbol).bid) := by
  refine ⟨rfl, rfl, rfl, rfl, rfl, rfl, fun h => ?_, fun h => ?_⟩ <;> simp [marketReq, h]

/-- Witness for C8 at the LONG and SHORT fixtures. -/
theorem send_price_semantics_witness :
    (marketReq env0 lo0).price = (env0.tick lo0.symbol).ask ∧
    (marketReq env0 loS).price = (env0.tick loS.symbol).bid ∧
    (sendReq (1.2345 : ℚ) lo0).price = 1.2345 :=
  ⟨(send_price_semantics env0 1 2 lo0).2.2.2.2.2.2.1 rfl,
   (send_price_semantics env0 1 2 loS).2.2.2.2.2.2.2 rfl,
   (send_price_semantics env0 (1.2345 : ℚ) 2 lo0).2.1⟩

/-- Claim C9: a market-origin order in AUTOMATIC mode re-enters with
exactly one market order (action DEAL) and skips the adjustment phase —
no removal, no replacement, and entry, stop-loss and take-profit are left
untouched. -/
theorem auto_market_origin_single_market_order (env : Env) (tr : Registry) (lo : LimitOrder)
    (hmk : lo.is_market = true) (hmode : lo.mode = "AUTOMATIC") :
    (_watch_close env tr lo).2.2 = [Request.send (marketReq env lo)] ∧
    (marketReq env lo).action = TradeAction.DEAL ∧
    (_watch_close env tr lo).2.1.entry_price = lo.entry_price ∧
    (_watch_close env tr lo).2.1.sl = lo.sl ∧
    (_watch_close env tr lo).2.1.tp = lo.tp := by
  unfold _watch_close
  rw [if_pos hmode, auto_market env lo hmk]
  exact ⟨rfl, rfl, rfl, rfl, rfl⟩

/-- Witness for C9 at the AUTOMATIC market-origin fixture. -/
theorem auto_market_origin_single_market_order_witness :
    (_watch_close env0 tracked0 loAM).2.2 = [Request.send (marketReq env0 loAM)] ∧
    (marketReq env0 loAM).action = TradeAction.DEAL ∧
    (_watch_close env0 tracked0 loAM).2.1.entry_price = loAM.entry_price ∧
    (_watch_close env0 tracked0 loAM).2.1.sl = loAM.sl ∧
    (_watch_close env0 tracked0 loAM).2.1.tp = loAM.tp :=
  auto_market_origin_single_market_order env0 tracked0 loAM rfl rfl

/-- Claim C10: a `start` request received while the bot is running still
replaces every field of the process-wide settings before the
already-running check — the bot is kept, and any order discovered
afterward captures the request's mode, adjust_wait, adjust_pct and
pip_distance. -/
theorem start_overwrites_settings_when_running (st : SysState) (b : BotState)
    (f : StartForm) (initOk : Bool) (o : OrderRec) (hb : st.bot = some b) :
    (start st f initOk).1.global_settings = formSettings f ∧
    (start st f initOk).1.bot = some b ∧
    lookupTicket (trackedOf (registerOrder (start st f initOk).1 o)) o.ticket
      = some (mkLimit (formSettings f) o) ∧
    (mkLimit (formSettings f) o).mode = f.mode ∧
    (mkLimit (formSettings f) o).adjust_wait = f.wait ∧
    (mkLimit (formSettings f) o).adjust_pct = f.pct ∧
    (mkLimit (formSettings f) o).pip_distance = f.pip := by
  unfold start registerOrder trackedOf
  simp [hb, _add, lookupTicket, formSettings, mkLimit]

/-- Witness for C10 at the running fixture with a form differing in every
field. -/
theorem start_overwrites_settings_when_running_witness :
    (start sys0 form0 true).1.global_settings = formSettings form0 ∧
    (start sys0 form0 true).1.bot = some bot0 ∧
    lookupTicket (trackedOf (registerOrder (start sys0 form0 true).1 ord0)) ord0.ticket
      = some (mkLimit (formSettings form0) ord0) ∧
    (mkLimit (formSettings form0) ord0).mode = form0.mode ∧
    (mkLimit (formSettings form0) ord0).adjust_wait = form0.wait ∧
    (mkLimit (formSettings form0) ord0).adjust_pct = form0.pct ∧
    (mkLimit (formSettings form0) ord0).pip_distance = form0.pip :=
  start_overwrites_settings_when_running sys0 bot0 form0 true ord0 rfl

end MT5Bot
